import Mathlib

/-!
Verification of the Yahoo dataset extraction pipeline
(`analysis_engine/yahoo/extract_df_from_redis.py`).

The Python code is shallowly embedded: Python values are modelled by the
inductive `PyVal`, dictionaries by association lists, raising code by
`Except PyErr`, and the external collaborators (the Redis fetch client,
the scrub routine, the generic pricing/news extract routine) are
parameters of the embedded functions.  Logging calls are elided: they do
not affect control flow or results.
-/

namespace ExtractDfFromRedis

/-- A Python value as used by this module: `None`, strings, integers,
tuples, lists and string-keyed dictionaries. -/
inductive PyVal where
  | none : PyVal
  | str (s : String) : PyVal
  | int (n : Int) : PyVal
  | tuple (xs : List PyVal) : PyVal
  | list (xs : List PyVal) : PyVal
  | dict (entries : List (String × PyVal)) : PyVal
deriving Repr

mutual

/-- Python `==` on the values this module manipulates: structural
equality (the module only ever compares a fetched status object against
an integer status constant). -/
def PyVal.beq : PyVal → PyVal → Bool
  | PyVal.none, PyVal.none => true
  | PyVal.str a, PyVal.str b => a == b
  | PyVal.int a, PyVal.int b => a == b
  | PyVal.tuple xs, PyVal.tuple ys => PyVal.beqList xs ys
  | PyVal.list xs, PyVal.list ys => PyVal.beqList xs ys
  | PyVal.dict xs, PyVal.dict ys => PyVal.beqEntries xs ys
  | _, _ => false

/-- Elementwise `PyVal.beq` on lists. -/
def PyVal.beqList : List PyVal → List PyVal → Bool
  | [], [] => true
  | x :: xs, y :: ys => PyVal.beq x y && PyVal.beqList xs ys
  | _, _ => false

/-- Elementwise `PyVal.beq` on dictionary entries. -/
def PyVal.beqEntries : List (String × PyVal) → List (String × PyVal) → Bool
  | [], [] => true
  | (k, v) :: xs, (k', v') :: ys =>
      k == k' && PyVal.beq v v' && PyVal.beqEntries xs ys
  | _, _ => false

end

/-- A Python exception, as observed by the module: `KeyError` from a
dictionary subscript, `TypeError` from subscripting a non-dictionary,
`ValueError` from the table decoder, or any other exception raised by a
collaborator. -/
inductive PyErr where
  | keyError (k : String) : PyErr
  | typeError : PyErr
  | valueError : PyErr
  | exn (msg : String) : PyErr
deriving DecidableEq, Repr

/-- A Python dictionary with string keys (the shape of every dictionary
this module manipulates). -/
abbrev PyDict := List (String × PyVal)

/-- `d.get(k)` / `d.get(k, default)`: `some v` when the key is present,
`none` otherwise (never raises). -/
def dictGet (d : PyDict) (k : String) : Option PyVal :=
  (d.find? (fun p => p.1 == k)).map (fun p => p.2)

/-- `k in d`. -/
def dictContains (d : PyDict) (k : String) : Bool :=
  (dictGet d k).isSome

/-- `d[k] = v`: replace the value at an existing key in place, append a
new key at the end (Python dictionaries keep insertion order). -/
def dictSet (d : PyDict) (k : String) (v : PyVal) : PyDict :=
  match d with
  | [] => [(k, v)]
  | p :: t => if p.1 == k then (k, v) :: t else p :: dictSet t k v

/-- `d[k]` on a dictionary: the value, or a `KeyError`. -/
def pySubscript (d : PyDict) (k : String) : Except PyErr PyVal :=
  match dictGet d k with
  | some v => Except.ok v
  | Option.none => Except.error (PyErr.keyError k)

/-- `v[k]` on an arbitrary Python value: subscripting anything other than
a dictionary (e.g. `None`) raises a `TypeError`. -/
def pyValSubscript (v : PyVal) (k : String) : Except PyErr PyVal :=
  match v with
  | PyVal.dict entries => pySubscript entries k
  | _ => Except.error PyErr.typeError

/-- `str(v)` / `'\x7b\x7d'.format(v)`, as far as this module observes it
(only ever used to build log labels; renderings of compound values are
abstracted). -/
def pyStr : PyVal → String
  | PyVal.none => "None"
  | PyVal.str s => s
  | PyVal.int n => toString n
  | PyVal.tuple _ => "<tuple>"
  | PyVal.list _ => "<list>"
  | PyVal.dict _ => "<dict>"

/-- Modelled from the spec: the status codes of `analysis_engine.consts`
(not under `src/`).  The spec gives an enum over
`\x7bNOT_RUN, SUCCESS, ERR, <other store-defined statuses>\x7d`; the
concrete integer codes are arbitrary but distinct. -/
def SUCCESS : PyVal := PyVal.int 0

/-- Modelled from the spec: the `ERR` status code (see `SUCCESS`). -/
def ERR : PyVal := PyVal.int 2

/-- Modelled from the spec: the `NOT_RUN` status code (see `SUCCESS`). -/
def NOT_RUN : PyVal := PyVal.int 4

/-- Modelled from the spec: the dataset-type tags of
`analysis_engine.yahoo.consts` (not under `src/`). -/
inductive DatafeedType where
  | pricing : DatafeedType
  | news : DatafeedType
  | options : DatafeedType
deriving DecidableEq, Repr

/-- Modelled from the spec: `get_datafeed_str_yahoo` (not under `src/`),
a pure dataset-type-to-string formatter used only for log context. -/
def get_datafeed_str_yahoo : DatafeedType → String
  | DatafeedType.pricing => "pricing"
  | DatafeedType.news => "news"
  | DatafeedType.options => "options"

/-- A row of a table: a flat mapping of column name to scalar value. -/
abbrev Row := List (String × PyVal)

/-- A `pandas.DataFrame`, modelled as its list of rows. -/
structure DataFrame where
  rows : List Row
deriving Repr

/-- Modelled from the spec: `pandas.read_json(..., orient='records')`
(an external collaborator): the serialized form is an array of row
objects, each a flat mapping of column name to scalar value; anything
else fails to decode. -/
def read_json_records (v : PyVal) : Except PyErr DataFrame :=
  match v with
  | PyVal.list rows => do
      let rs ← rows.mapM (fun r =>
        match r with
        | PyVal.dict entries => Except.ok entries
        | _ => Except.error PyErr.valueError)
      Except.ok ⟨rs⟩
  | _ => Except.error PyErr.valueError

/-- Encoding a table to the row-oriented serialized form: the array of
its row objects (the inverse direction of `read_json_records`). -/
def encodeRecords (df : DataFrame) : PyVal :=
  PyVal.list (df.rows.map PyVal.dict)

/-- The arguments `extract_option_calls_dataset` / `extract_option_puts_dataset`
pass to `redis_get.get_data_from_redis_key`. -/
structure FetchArgs where
  label : String
  host : PyVal
  port : PyVal
  db : PyVal
  password : PyVal
  key : PyVal

/-- The external Redis fetch collaborator
(`analysis_engine.get_data_from_redis_key`, not under `src/`): returns
the response record or raises. -/
abbrev Fetch := FetchArgs → Except PyErr PyVal

/-- The arguments the option pipelines pass to
`scrub_utils.extract_scrub_dataset`. -/
structure ScrubArgs where
  label : String
  scrub_mode : String
  datafeed_type : DatafeedType
  msg_format : String
  ds_id : PyVal
  df : Option DataFrame

/-- The external scrub collaborator
(`analysis_engine.dataset_scrub_utils`, not under `src/`): returns the
scrubbed table (possibly `None`) or raises. -/
abbrev Scrub := ScrubArgs → Except PyErr (Option DataFrame)

/-- `work_dict.get('redis_key', work_dict.get('options', 'missing-redis-key'))`
(source lines 126-128 / 242-244): total, never raises. -/
def resolve_option_redis_key (work_dict : PyDict) : PyVal :=
  (dictGet work_dict "redis_key").getD
    ((dictGet work_dict "options").getD (PyVal.str "missing-redis-key"))

/-- `work_dict.get('s3_key', work_dict.get('options', 'missing-s3-key'))`
(source lines 129-131 / 245-247): total, never raises. -/
def resolve_option_s3_key (work_dict : PyDict) : PyVal :=
  (dictGet work_dict "s3_key").getD
    ((dictGet work_dict "options").getD (PyVal.str "missing-s3-key"))

/-- The connection parameters of the option pipelines. -/
structure ConnParams where
  host : PyVal
  port : PyVal
  db : PyVal

/-- Source lines 132-134 / 248-250:
`redis_host = work_dict['redis_host'],` (and likewise for port and db).
Each statement ends in a trailing comma, so each binding wraps the
looked-up value in a 1-tuple.  The subscripts raise `KeyError` when a
key is absent, and they sit before the `try` block, so such a fault
propagates to the caller. -/
def optionConnParams (work_dict : PyDict) : Except PyErr ConnParams := do
  let hv ← pySubscript work_dict "redis_host"
  let pv ← pySubscript work_dict "redis_port"
  let dv ← pySubscript work_dict "redis_db"
  Except.ok ⟨PyVal.tuple [hv], PyVal.tuple [pv], PyVal.tuple [dv]⟩

/-- `'\x7b\x7d-calls'.format(work_dict.get('label', 'extract'))` and the
puts analogue. -/
def mkOptionLabel (work_dict : PyDict) (side : String) : String :=
  pyStr ((dictGet work_dict "label").getD (PyVal.str "extract")) ++ side

/-- The argument record of the fetch call in
`extract_option_calls_dataset` (source lines 147-153). -/
def mkCallsFetchArgs (work_dict : PyDict) (cp : ConnParams) : FetchArgs :=
  ⟨mkOptionLabel work_dict "-calls", cp.host, cp.port, cp.db,
    (dictGet work_dict "password").getD PyVal.none,
    resolve_option_redis_key work_dict⟩

/-- The argument record of the fetch call in
`extract_option_puts_dataset` (source lines 263-269). -/
def mkPutsFetchArgs (work_dict : PyDict) (cp : ConnParams) : FetchArgs :=
  ⟨mkOptionLabel work_dict "-puts", cp.host, cp.port, cp.db,
    (dictGet work_dict "password").getD PyVal.none,
    resolve_option_redis_key work_dict⟩

/-- The argument record of the scrub call in
`extract_option_calls_dataset` (source lines 213-219). -/
def mkCallsScrubArgs (work_dict : PyDict) (scrub_mode : String)
    (df : Option DataFrame) : ScrubArgs :=
  ⟨mkOptionLabel work_dict "-calls", scrub_mode, DatafeedType.options,
    "df=\x7b\x7d date_str=\x7b\x7d",
    (dictGet work_dict "ticker").getD PyVal.none, df⟩

/-- The argument record of the scrub call in
`extract_option_puts_dataset` (source lines 329-335). -/
def mkPutsScrubArgs (work_dict : PyDict) (scrub_mode : String)
    (df : Option DataFrame) : ScrubArgs :=
  ⟨mkOptionLabel work_dict "-puts", scrub_mode, DatafeedType.options,
    "df=\x7b\x7d date_str=\x7b\x7d",
    (dictGet work_dict "ticker").getD PyVal.none, df⟩

/-- The body of the `try` block of `extract_option_calls_dataset`
(source lines 146-189): fetch the record, read its `status`; on
`SUCCESS` read `rec`, `data`, `exp_date` and `calls` (the `print` on
line 164 performs the `rec`/`data` subscripts first) and decode the
serialized `calls` table; on any other status leave the table `None`.
Any exception escapes to the enclosing handler. -/
def optionCallsTry (fetch : Fetch) (args : FetchArgs) :
    Except PyErr (PyVal × Option DataFrame) := do
  let redis_rec ← fetch args
  let status ← pyValSubscript redis_rec "status"
  if PyVal.beq status SUCCESS then
    let recv ← pyValSubscript redis_rec "rec"
    let data ← pyValSubscript recv "data"
    let _exp_date_str ← pyValSubscript data "exp_date"
    let calls_json ← pyValSubscript data "calls"
    let calls_df ← read_json_records calls_json
    Except.ok (status, some calls_df)
  else
    Except.ok (status, Option.none)

/-- The body of the `try` block of `extract_option_puts_dataset`
(source lines 262-305), identical to the calls side except that it
decodes the `puts` field. -/
def optionPutsTry (fetch : Fetch) (args : FetchArgs) :
    Except PyErr (PyVal × Option DataFrame) := do
  let redis_rec ← fetch args
  let status ← pyValSubscript redis_rec "status"
  if PyVal.beq status SUCCESS then
    let recv ← pyValSubscript redis_rec "rec"
    let data ← pyValSubscript recv "data"
    let _exp_date_str ← pyValSubscript data "exp_date"
    let puts_json ← pyValSubscript data "puts"
    let puts_df ← read_json_records puts_json
    Except.ok (status, some puts_df)
  else
    Except.ok (status, Option.none)

/-- `extract_option_calls_dataset` (source lines 111-224), parameterized
by its two external collaborators.  Key resolution and the connection
parameter subscripts happen before the `try` block; an exception inside
the `try` is converted to `(ERR, None)` and returned; otherwise the
scrub routine runs outside any handler (its fault propagates), and a
completed scrub yields status `SUCCESS` with the scrub output. -/
def extract_option_calls_dataset (fetch : Fetch) (scrub : Scrub)
    (work_dict : PyDict) (scrub_mode : String := "sort-by-date") :
    Except PyErr (PyVal × Option DataFrame) :=
  match optionConnParams work_dict with
  | Except.error e => Except.error e
  | Except.ok cp =>
    match optionCallsTry fetch (mkCallsFetchArgs work_dict cp) with
    | Except.error _ => Except.ok (ERR, Option.none)
    | Except.ok (_status, calls_df) =>
      match scrub (mkCallsScrubArgs work_dict scrub_mode calls_df) with
      | Except.error e => Except.error e
      | Except.ok scrubbed_df => Except.ok (SUCCESS, scrubbed_df)

/-- `extract_option_puts_dataset` (source lines 227-340), identical to
the calls side except for the decoded field and the label suffix. -/
def extract_option_puts_dataset (fetch : Fetch) (scrub : Scrub)
    (work_dict : PyDict) (scrub_mode : String := "sort-by-date") :
    Except PyErr (PyVal × Option DataFrame) :=
  match optionConnParams work_dict with
  | Except.error e => Except.error e
  | Except.ok cp =>
    match optionPutsTry fetch (mkPutsFetchArgs work_dict cp) with
    | Except.error _ => Except.ok (ERR, Option.none)
    | Except.ok (_status, puts_df) =>
      match scrub (mkPutsScrubArgs work_dict scrub_mode puts_df) with
      | Except.error e => Except.error e
      | Except.ok scrubbed_df => Except.ok (SUCCESS, scrubbed_df)

/-- The two dictionary objects alive during request normalization: the
caller's `work_dict` and the deep copy `req`.  Python mutation is
embedded as explicit state passing over this pair. -/
structure NormState where
  work_dict : PyDict
  req : PyDict

/-- The normalization prefix of `extract_pricing_dataset` (source lines
53-60): `req = copy.deepcopy(work_dict)`, then if `'redis_key' not in
work_dict` and `'pricing' in req`, assign `req['redis_key']` and
`req['s3_key']` from `req['pricing']` (both reads are guarded, so the
`getD` default is never taken).  All writes target `req`. -/
def extract_pricing_normalize (work_dict : PyDict) : NormState :=
  let s : NormState := ⟨work_dict, work_dict⟩
  if ¬ dictContains s.work_dict "redis_key" then
    if dictContains s.req "pricing" then
      let s := { s with
        req := dictSet s.req "redis_key"
          ((dictGet s.req "pricing").getD PyVal.none) }
      { s with
        req := dictSet s.req "s3_key"
          ((dictGet s.req "pricing").getD PyVal.none) }
    else s
  else s

/-- The normalization prefix of `extract_yahoo_news_dataset` (source
lines 89-96): same as the pricing side except that the alias field is
`news` and its presence is tested on `work_dict` (equal in contents to
the fresh copy `req`). -/
def extract_yahoo_news_normalize (work_dict : PyDict) : NormState :=
  let s : NormState := ⟨work_dict, work_dict⟩
  if ¬ dictContains s.work_dict "redis_key" then
    if dictContains s.work_dict "news" then
      let s := { s with
        req := dictSet s.req "redis_key"
          ((dictGet s.req "news").getD PyVal.none) }
      { s with
        req := dictSet s.req "s3_key"
          ((dictGet s.req "news").getD PyVal.none) }
    else s
  else s

/-- The external generic extract-and-scrub collaborator
(`analysis_engine.extract_utils.perform_extract`, not under `src/`),
taking the dataset type, its display string, the canonical request and
the scrub mode. -/
abbrev PerformExtract := DatafeedType → String → PyDict → String → PyVal × Option DataFrame

/-- `extract_pricing_dataset` (source lines 39-72), parameterized by the
generic extract collaborator.  It normalizes a deep copy of the request
and delegates; the embedding also returns the final state of the
caller's `work_dict` object so that the absence of mutation is a
provable statement. -/
def extract_pricing_dataset (perform_extract : PerformExtract)
    (work_dict : PyDict) (scrub_mode : String := "sort-by-date") :
    (PyVal × Option DataFrame) × PyDict :=
  let s := extract_pricing_normalize work_dict
  (perform_extract DatafeedType.pricing
      (get_datafeed_str_yahoo DatafeedType.pricing) s.req scrub_mode,
    s.work_dict)

/-- `extract_yahoo_news_dataset` (source lines 75-108), parameterized by
the generic extract collaborator (see `extract_pricing_dataset`). -/
def extract_yahoo_news_dataset (perform_extract : PerformExtract)
    (work_dict : PyDict) (scrub_mode : String := "sort-by-date") :
    (PyVal × Option DataFrame) × PyDict :=
  let s := extract_yahoo_news_normalize work_dict
  (perform_extract DatafeedType.news
      (get_datafeed_str_yahoo DatafeedType.news) s.req scrub_mode,
    s.work_dict)

/-- The sort key of a row under the `sort-by-date` scrub mode: the
string value of its `date` column (rows without one sort first). -/
def rowDateKey (r : Row) : String :=
  match (r.find? (fun p => p.1 == "date")).map (fun p => p.2) with
  | some (PyVal.str s) => s
  | _ => ""

/-- Insert a row into a date-sorted list of rows, keeping it sorted. -/
def insertByDate (r : Row) : List Row → List Row
  | [] => [r]
  | x :: xs =>
      if rowDateKey r < rowDateKey x then r :: x :: xs
      else x :: insertByDate r xs

/-- Stable insertion sort of rows by date key. -/
def sortRowsByDate : List Row → List Row
  | [] => []
  | r :: rs => insertByDate r (sortRowsByDate rs)

/-- Modelled from the spec: `scrub_utils.extract_scrub_dataset`
(`analysis_engine.dataset_scrub_utils`, not under `src/`), per §6 and
the glossary a pure post-fetch normalization pass over a table — for
mode `sort-by-date`, sorting the rows by date; a `None` table passes
through. -/
def extract_scrub_dataset_model : Scrub := fun a =>
  match a.df with
  | Option.none => Except.ok Option.none
  | some df => Except.ok (some ⟨sortRowsByDate df.rows⟩)

/-- A store response record with status `SUCCESS` and a well-formed
nested `rec.data` record carrying an expiration date and the same
serialized table for both option sides. -/
def mkOptionsSuccessRec (exp_date : PyVal) (rows : List Row) : PyVal :=
  PyVal.dict [("status", SUCCESS),
    ("rec", PyVal.dict [("data", PyVal.dict
      [("exp_date", exp_date),
       ("calls", encodeRecords ⟨rows⟩),
       ("puts", encodeRecords ⟨rows⟩)])])]

/-- A sample work request carrying connection parameters and a key. -/
def sampleWd : PyDict :=
  [("redis_host", PyVal.str "localhost"), ("redis_port", PyVal.int 6379),
   ("redis_db", PyVal.int 0), ("redis_key", PyVal.str "opt-key"),
   ("ticker", PyVal.str "SPY")]

/-- The connection parameters the code computes from `sampleWd`. -/
def sampleCp : ConnParams :=
  ⟨PyVal.tuple [PyVal.str "localhost"], PyVal.tuple [PyVal.int 6379],
   PyVal.tuple [PyVal.int 0]⟩

/-- A fetch collaborator answering `\x7bstatus: NOT_RUN\x7d`. -/
def fetchNotRun : Fetch := fun _ =>
  Except.ok (PyVal.dict [("status", NOT_RUN)])

/-- A scrub collaborator returning its input table unchanged. -/
def scrubEcho : Scrub := fun a => Except.ok a.df

/-- A scrub collaborator returning a null table. -/
def scrubNone : Scrub := fun _ => Except.ok Option.none

/-- A scrub collaborator that raises. -/
def scrubRaise : Scrub := fun _ => Except.error (PyErr.exn "scrub boom")

/-- A marker table recognizably produced by `scrubMark`. -/
def markDf : DataFrame := ⟨[[("marker", PyVal.int 1)]]⟩

/-- A scrub collaborator returning the marker table whatever its input,
so that its invocation is visible in the pipeline's result. -/
def scrubMark : Scrub := fun _ => Except.ok (some markDf)

/-- A `SUCCESS` store response whose `rec.data` record lacks the
`calls` and `puts` fields (a malformed nested record). -/
def recMissingCalls : PyVal :=
  PyVal.dict [("status", SUCCESS),
    ("rec", PyVal.dict [("data", PyVal.dict
      [("exp_date", PyVal.str "2024-01-19")])])]

/-- A fetch collaborator answering the malformed record. -/
def fetchMissingCalls : Fetch := fun _ => Except.ok recMissingCalls

/-- A fetch collaborator that raises a connection-level fault. -/
def fetchRaise : Fetch := fun _ => Except.error (PyErr.exn "conn down")

/-- Two sample rows with out-of-order dates. -/
def sampleRows : List Row :=
  [[("date", PyVal.str "2024-01-19"), ("strike", PyVal.int 101)],
   [("date", PyVal.str "2024-01-05"), ("strike", PyVal.int 100)]]

/-- A get-dataset style request carrying only alias fields. -/
def aliasWd : PyDict :=
  [("pricing", PyVal.str "SPY_pricing"), ("news", PyVal.str "SPY_news")]

/-- A stub generic extract collaborator. -/
def performExtractStub : PerformExtract :=
  fun _ _ _ _ => (NOT_RUN, Option.none)

/-- `PyVal.beq` against the integer status constant `SUCCESS` agrees
with propositional equality. -/
theorem beq_SUCCESS_iff (s : PyVal) : PyVal.beq s SUCCESS = true ↔ s = SUCCESS := by
  cases s <;> simp [PyVal.beq, SUCCESS]

/-- A status other than `SUCCESS` fails the code's `==` test. -/
theorem beq_SUCCESS_eq_false (s : PyVal) (h : s ≠ SUCCESS) :
    PyVal.beq s SUCCESS = false := by
  cases hb : PyVal.beq s SUCCESS
  · rfl
  · exact absurd ((beq_SUCCESS_iff s).mp hb) h

/-- Reading back the key just written. -/
theorem dictGet_dictSet_self (d : PyDict) (k : String) (v : PyVal) :
    dictGet (dictSet d k v) k = some v := by
  induction d with
  | nil => simp [dictSet, dictGet]
  | cons p t ih =>
      by_cases h : p.1 = k
      · simp [dictSet, dictGet, h]
      · simp only [dictSet, dictGet] at ih ⊢
        rw [if_neg (by simpa using h)]
        simp only [List.find?]
        rw [show (p.1 == k) = false by simpa using h]
        exact ih

/-- Writing one key leaves every other key unchanged. -/
theorem dictGet_dictSet_ne (d : PyDict) (k k' : String) (v : PyVal)
    (h : k' ≠ k) : dictGet (dictSet d k v) k' = dictGet d k' := by
  induction d with
  | nil => simp [dictSet, dictGet, List.find?, show (k == k') = false by simpa using (Ne.symm h)]
  | cons p t ih =>
      by_cases hp : p.1 = k
      · simp only [dictSet]
        rw [if_pos (by simpa using hp)]
        simp only [dictGet, List.find?]
        rw [show (k == k') = false by simpa using (Ne.symm h),
          show (p.1 == k') = false by simpa [hp] using (Ne.symm h)]
      · simp only [dictSet]
        rw [if_neg (by simpa using hp)]
        simp only [dictGet, List.find?] at ih ⊢
        cases hpk : (p.1 == k') with
        | true => rfl
        | false => exact ih

/-- Decoding inverts encoding: the row-oriented serialized form of a
table reads back as exactly that table. -/
theorem read_json_records_encodeRecords (df : DataFrame) :
    read_json_records (encodeRecords df) = Except.ok df := by
  obtain ⟨rows⟩ := df
  simp only [encodeRecords, read_json_records]
  induction rows with
  | nil => rfl
  | cons r t ih =>
      simp only [List.map, List.mapM_cons] at ih ⊢
      cases hmap : (t.map PyVal.dict).mapM (fun r =>
        match r with
        | PyVal.dict entries => Except.ok entries
        | _ => Except.error PyErr.valueError) with
      | error e => rw [hmap] at ih; simp [bind, Except.bind] at ih
      | ok rs =>
          rw [hmap] at ih
          simp only [bind, Except.bind, pure, Except.pure] at ih ⊢
          cases ih
          rfl

/-- Inserting a row yields a permutation of consing it. -/
theorem insertByDate_perm (r : Row) (l : List Row) :
    (insertByDate r l).Perm (r :: l) := by
  induction l with
  | nil => simp [insertByDate]
  | cons x xs ih =>
      simp only [insertByDate]
      by_cases h : rowDateKey r < rowDateKey x
      · rw [if_pos h]
      · rw [if_neg h]
        exact ((ih.cons x).trans (List.Perm.swap r x xs))

/-- The date sort permutes the rows. -/
theorem sortRowsByDate_perm (l : List Row) : (sortRowsByDate l).Perm l := by
  induction l with
  | nil => simp [sortRowsByDate]
  | cons r rs ih =>
      exact (insertByDate_perm r (sortRowsByDate rs)).trans (ih.cons r)

/-- A fetched record with a non-`SUCCESS` status makes the `try` body
return that status and a `None` table, reading nothing else from the
record. -/
theorem optionCallsTry_nonsuccess (fetch : Fetch) (args : FetchArgs)
    (rec s : PyVal) (hf : fetch args = Except.ok rec)
    (hs : pyValSubscript rec "status" = Except.ok s) (hns : s ≠ SUCCESS) :
    optionCallsTry fetch args = Except.ok (s, Option.none) := by
  simp [optionCallsTry, hf, hs, bind, Except.bind,
    beq_SUCCESS_eq_false s hns]

/-- Puts-side analogue of `optionCallsTry_nonsuccess`. -/
theorem optionPutsTry_nonsuccess (fetch : Fetch) (args : FetchArgs)
    (rec s : PyVal) (hf : fetch args = Except.ok rec)
    (hs : pyValSubscript rec "status" = Except.ok s) (hns : s ≠ SUCCESS) :
    optionPutsTry fetch args = Except.ok (s, Option.none) := by
  simp [optionPutsTry, hf, hs, bind, Except.bind,
    beq_SUCCESS_eq_false s hns]

/-- A raising fetch makes the `try` body raise the same fault. -/
theorem optionCallsTry_fetch_error (fetch : Fetch) (args : FetchArgs)
    (e : PyErr) (hf : fetch args = Except.error e) :
    optionCallsTry fetch args = Except.error e := by
  simp [optionCallsTry, hf, bind, Except.bind]

/-- Puts-side analogue of `optionCallsTry_fetch_error`. -/
theorem optionPutsTry_fetch_error (fetch : Fetch) (args : FetchArgs)
    (e : PyErr) (hf : fetch args = Except.error e) :
    optionPutsTry fetch args = Except.error e := by
  simp [optionPutsTry, hf, bind, Except.bind]

/-- A `SUCCESS` record with a well-formed nested payload makes the
`try` body decode the `calls` table. -/
theorem optionCallsTry_success (fetch : Fetch) (args : FetchArgs)
    (rec recv data ej cj : PyVal) (df : DataFrame)
    (hf : fetch args = Except.ok rec)
    (hs : pyValSubscript rec "status" = Except.ok SUCCESS)
    (hr : pyValSubscript rec "rec" = Except.ok recv)
    (hd : pyValSubscript recv "data" = Except.ok data)
    (he : pyValSubscript data "exp_date" = Except.ok ej)
    (hc : pyValSubscript data "calls" = Except.ok cj)
    (hdf : read_json_records cj = Except.ok df) :
    optionCallsTry fetch args = Except.ok (SUCCESS, some df) := by
  simp [optionCallsTry, hf, hs, hr, hd, he, hc, hdf, bind, Except.bind,
    PyVal.beq, SUCCESS]

/-- Puts-side analogue of `optionCallsTry_success`. -/
theorem optionPutsTry_success (fetch : Fetch) (args : FetchArgs)
    (rec recv data ej pj : PyVal) (df : DataFrame)
    (hf : fetch args = Except.ok rec)
    (hs : pyValSubscript rec "status" = Except.ok SUCCESS)
    (hr : pyValSubscript rec "rec" = Except.ok recv)
    (hd : pyValSubscript recv "data" = Except.ok data)
    (he : pyValSubscript data "exp_date" = Except.ok ej)
    (hp : pyValSubscript data "puts" = Except.ok pj)
    (hdf : read_json_records pj = Except.ok df) :
    optionPutsTry fetch args = Except.ok (SUCCESS, some df) := by
  simp [optionPutsTry, hf, hs, hr, hd, he, hp, hdf, bind, Except.bind,
    PyVal.beq, SUCCESS]

/-- Once the connection parameters are in hand, the calls pipeline is
the `try` body followed by the uncaught scrub call. -/
theorem extract_option_calls_dataset_eq (fetch : Fetch) (scrub : Scrub)
    (wd : PyDict) (m : String) (cp : ConnParams)
    (hcp : optionConnParams wd = Except.ok cp) :
    extract_option_calls_dataset fetch scrub wd m =
      match optionCallsTry fetch (mkCallsFetchArgs wd cp) with
      | Except.error _ => Except.ok (ERR, Option.none)
      | Except.ok (_status, df) =>
        match scrub (mkCallsScrubArgs wd m df) with
        | Except.error e => Except.error e
        | Except.ok out => Except.ok (SUCCESS, out) := by
  simp [extract_option_calls_dataset, hcp]

/-- Puts-side analogue of `extract_option_calls_dataset_eq`. -/
theorem extract_option_puts_dataset_eq (fetch : Fetch) (scrub : Scrub)
    (wd : PyDict) (m : String) (cp : ConnParams)
    (hcp : optionConnParams wd = Except.ok cp) :
    extract_option_puts_dataset fetch scrub wd m =
      match optionPutsTry fetch (mkPutsFetchArgs wd cp) with
      | Except.error _ => Except.ok (ERR, Option.none)
      | Except.ok (_status, df) =>
        match scrub (mkPutsScrubArgs wd m df) with
        | Except.error e => Except.error e
        | Except.ok out => Except.ok (SUCCESS, out) := by
  simp [extract_option_puts_dataset, hcp]

/-- C10: on the options path, key resolution is total and never raises:
`redis_key` is the request's `redis_key` value when the key is present,
else the `options` value when present, else the sentinel
`"missing-redis-key"`; `s3_key` is resolved analogously with sentinel
`"missing-s3-key"`; and the key handed to the fetch call is exactly the
resolved `redis_key`. -/
theorem C10_option_key_resolution (wd : PyDict) :
    (∀ v, dictGet wd "redis_key" = some v → resolve_option_redis_key wd = v) ∧
    (dictGet wd "redis_key" = Option.none → ∀ v, dictGet wd "options" = some v →
      resolve_option_redis_key wd = v) ∧
    (dictGet wd "redis_key" = Option.none → dictGet wd "options" = Option.none →
      resolve_option_redis_key wd = PyVal.str "missing-redis-key") ∧
    (∀ v, dictGet wd "s3_key" = some v → resolve_option_s3_key wd = v) ∧
    (dictGet wd "s3_key" = Option.none → ∀ v, dictGet wd "options" = some v →
      resolve_option_s3_key wd = v) ∧
    (dictGet wd "s3_key" = Option.none → dictGet wd "options" = Option.none →
      resolve_option_s3_key wd = PyVal.str "missing-s3-key") ∧
    (∀ cp, (mkCallsFetchArgs wd cp).key = resolve_option_redis_key wd) ∧
    (∀ cp, (mkPutsFetchArgs wd cp).key = resolve_option_redis_key wd) := by
  refine ⟨?_, ?_, ?_, ?_, ?_, ?_, fun cp => rfl, fun cp => rfl⟩ <;>
    intros <;> simp_all [resolve_option_redis_key, resolve_option_s3_key]

/-- Witness for `C10_option_key_resolution` at a concrete request. -/
theorem C10_option_key_resolution_witness :
    resolve_option_redis_key sampleWd = PyVal.str "opt-key" :=
  (C10_option_key_resolution sampleWd).1 (PyVal.str "opt-key") rfl

/-- C8: a request missing any of `redis_host`, `redis_port`, `redis_db`
makes both option pipelines raise the missing-key fault to the caller
(the subscripts sit before the broad `try`), instead of defaulting the
parameter or degrading to `(ERR, None)`. -/
theorem C8_missing_conn_param_raises (wd : PyDict)
    (h : dictGet wd "redis_host" = Option.none ∨
      dictGet wd "redis_port" = Option.none ∨
      dictGet wd "redis_db" = Option.none) :
    ∃ k, dictGet wd k = Option.none ∧
      (k = "redis_host" ∨ k = "redis_port" ∨ k = "redis_db") ∧
      ∀ fetch scrub m,
        extract_option_calls_dataset fetch scrub wd m =
          Except.error (PyErr.keyError k) ∧
        extract_option_puts_dataset fetch scrub wd m =
          Except.error (PyErr.keyError k) := by
  cases hhost : dictGet wd "redis_host" with
  | none =>
      refine ⟨"redis_host", hhost, Or.inl rfl, fun fetch scrub m => ?_⟩
      have hcp : optionConnParams wd = Except.error (PyErr.keyError "redis_host") := by
        simp [optionConnParams, pySubscript, hhost, bind, Except.bind]
      exact ⟨by simp [extract_option_calls_dataset, hcp],
        by simp [extract_option_puts_dataset, hcp]⟩
  | some hv =>
      cases hport : dictGet wd "redis_port" with
      | none =>
          refine ⟨"redis_port", hport, Or.inr (Or.inl rfl), fun fetch scrub m => ?_⟩
          have hcp : optionConnParams wd = Except.error (PyErr.keyError "redis_port") := by
            simp [optionConnParams, pySubscript, hhost, hport, bind, Except.bind]
          exact ⟨by simp [extract_option_calls_dataset, hcp],
            by simp [extract_option_puts_dataset, hcp]⟩
      | some pv =>
          cases hdb : dictGet wd "redis_db" with
          | none =>
              refine ⟨"redis_db", hdb, Or.inr (Or.inr rfl), fun fetch scrub m => ?_⟩
              have hcp : optionConnParams wd = Except.error (PyErr.keyError "redis_db") := by
                simp [optionConnParams, pySubscript, hhost, hport, hdb, bind, Except.bind]
              exact ⟨by simp [extract_option_calls_dataset, hcp],
                by simp [extract_option_puts_dataset, hcp]⟩
          | some dv => simp [hhost, hport, hdb] at h

/-- Witness for `C8_missing_conn_param_raises` at a concrete request
lacking `redis_host`. -/
theorem C8_missing_conn_param_raises_witness :
    ∃ k, dictGet aliasWd k = Option.none ∧
      (k = "redis_host" ∨ k = "redis_port" ∨ k = "redis_db") ∧
      ∀ fetch scrub m,
        extract_option_calls_dataset fetch scrub aliasWd m =
          Except.error (PyErr.keyError k) ∧
        extract_option_puts_dataset fetch scrub aliasWd m =
          Except.error (PyErr.keyError k) :=
  C8_missing_conn_param_raises aliasWd (Or.inl rfl)

/-- C2 (code bug): the trailing commas on source lines 132-134 / 248-250
wrap each connection parameter in a 1-tuple, so the host, port and db
arguments handed to the fetch call are 1-tuples around the request's
values, not the values themselves. -/
theorem C2_conn_params_wrapped_in_tuples :
    optionConnParams sampleWd = Except.ok sampleCp ∧
    sampleCp.host = PyVal.tuple [PyVal.str "localhost"] ∧
    sampleCp.port = PyVal.tuple [PyVal.int 6379] ∧
    sampleCp.db = PyVal.tuple [PyVal.int 0] ∧
    sampleCp.host ≠ PyVal.str "localhost" ∧
    (mkCallsFetchArgs sampleWd sampleCp).host = sampleCp.host ∧
    (mkPutsFetchArgs sampleWd sampleCp).host = sampleCp.host := by
  refine ⟨rfl, rfl, rfl, rfl, ?_, rfl, rfl⟩
  intro h
  exact PyVal.noConfusion h

/-- C7: the caller's request object is unchanged when the extraction
functions return: the pricing and news normalizers write only to the
deep copy `req` (their `work_dict` state component is returned intact),
and the full pricing/news entry points hand back the caller's mapping
as it was.  (The option pipelines perform only `get`/subscript reads on
`work_dict`: their embeddings contain no `dictSet`.) -/
theorem C7_caller_request_unchanged (wd : PyDict) :
    (extract_pricing_normalize wd).work_dict = wd ∧
    (extract_yahoo_news_normalize wd).work_dict = wd ∧
    (∀ pe m, (extract_pricing_dataset pe wd m).2 = wd) ∧
    (∀ pe m, (extract_yahoo_news_dataset pe wd m).2 = wd) := by
  have h1 : (extract_pricing_normalize wd).work_dict = wd := by
    simp only [extract_pricing_normalize]
    split_ifs <;> rfl
  have h2 : (extract_yahoo_news_normalize wd).work_dict = wd := by
    simp only [extract_yahoo_news_normalize]
    split_ifs <;> rfl
  exact ⟨h1, h2, fun pe m => h1, fun pe m => h2⟩

/-- Witness for `C7_caller_request_unchanged` at a concrete request. -/
theorem C7_caller_request_unchanged_witness :
    (extract_pricing_dataset performExtractStub aliasWd "sort-by-date").2 = aliasWd :=
  (C7_caller_request_unchanged aliasWd).2.2.1 performExtractStub "sort-by-date"

/-- C6: for a request lacking `redis_key` whose alias field (`pricing`
for the pricing path, `news` for the news path) is present, the
normalized request carries the alias value under both `redis_key` and
`s3_key`; for a request already carrying `redis_key`, normalization
returns the state unchanged (both dictionaries equal the input); and
each entry point passes exactly the normalized `req` to the generic
extract routine. -/
theorem C6_alias_normalization (wd : PyDict) :
    (dictContains wd "redis_key" = false → ∀ v, dictGet wd "pricing" = some v →
      dictGet (extract_pricing_normalize wd).req "redis_key" = some v ∧
      dictGet (extract_pricing_normalize wd).req "s3_key" = some v) ∧
    (dictContains wd "redis_key" = true →
      extract_pricing_normalize wd = ⟨wd, wd⟩) ∧
    (dictContains wd "redis_key" = false → ∀ v, dictGet wd "news" = some v →
      dictGet (extract_yahoo_news_normalize wd).req "redis_key" = some v ∧
      dictGet (extract_yahoo_news_normalize wd).req "s3_key" = some v) ∧
    (dictContains wd "redis_key" = true →
      extract_yahoo_news_normalize wd = ⟨wd, wd⟩) ∧
    (∀ pe m, (extract_pricing_dataset pe wd m).1 =
      pe DatafeedType.pricing "pricing" (extract_pricing_normalize wd).req m) ∧
    (∀ pe m, (extract_yahoo_news_dataset pe wd m).1 =
      pe DatafeedType.news "news" (extract_yahoo_news_normalize wd).req m) := by
  have hne1 : "redis_key" ≠ "s3_key" := by decide
  have hne2 : "pricing" ≠ "redis_key" := by decide
  have hne3 : "news" ≠ "redis_key" := by decide
  refine ⟨?_, ?_, ?_, ?_, fun pe m => rfl, fun pe m => rfl⟩
  · intro hk v hv
    have hcv : dictContains wd "pricing" = true := by
      simp [dictContains, hv]
    have hreq : (extract_pricing_normalize wd).req =
        dictSet (dictSet wd "redis_key" v) "s3_key" v := by
      simp [extract_pricing_normalize, hk, hcv, hv,
        dictGet_dictSet_ne wd "redis_key" "pricing" v hne2]
    rw [hreq]
    exact ⟨by
        rw [dictGet_dictSet_ne _ "s3_key" "redis_key" v hne1]
        exact dictGet_dictSet_self wd "redis_key" v,
      dictGet_dictSet_self _ "s3_key" v⟩
  · intro hk
    simp [extract_pricing_normalize, hk]
  · intro hk v hv
    have hcv : dictContains wd "news" = true := by
      simp [dictContains, hv]
    have hreq : (extract_yahoo_news_normalize wd).req =
        dictSet (dictSet wd "redis_key" v) "s3_key" v := by
      simp [extract_yahoo_news_normalize, hk, hcv, hv,
        dictGet_dictSet_ne wd "redis_key" "news" v hne3]
    rw [hreq]
    exact ⟨by
        rw [dictGet_dictSet_ne _ "s3_key" "redis_key" v hne1]
        exact dictGet_dictSet_self wd "redis_key" v,
      dictGet_dictSet_self _ "s3_key" v⟩
  · intro hk
    simp [extract_yahoo_news_normalize, hk]

/-- Witness for `C6_alias_normalization`: the alias-only request gets
its `pricing` value installed as both keys, and `sampleWd` (which has a
`redis_key`) normalizes to itself. -/
theorem C6_alias_normalization_witness :
    (dictGet (extract_pricing_normalize aliasWd).req "redis_key" =
        some (PyVal.str "SPY_pricing") ∧
      dictGet (extract_pricing_normalize aliasWd).req "s3_key" =
        some (PyVal.str "SPY_pricing")) ∧
    extract_pricing_normalize sampleWd = ⟨sampleWd, sampleWd⟩ :=
  ⟨(C6_alias_normalization aliasWd).1 rfl (PyVal.str "SPY_pricing") rfl,
   (C6_alias_normalization sampleWd).2.1 rfl⟩

/-- C1 (counterexample to the claim as stated): for a store response
with status `NOT_RUN`, `extract_option_calls_dataset` and
`extract_option_puts_dataset` do NOT return `(NOT_RUN, None)`: the
scrub routine is invoked (its marker output surfaces in the result) and
the returned status is `SUCCESS`. -/
theorem C1_counterexample :
    extract_option_calls_dataset fetchNotRun scrubMark sampleWd "sort-by-date" ≠
      Except.ok (NOT_RUN, Option.none) ∧
    extract_option_calls_dataset fetchNotRun scrubMark sampleWd "sort-by-date" =
      Except.ok (SUCCESS, some markDf) ∧
    extract_option_puts_dataset fetchNotRun scrubMark sampleWd "sort-by-date" ≠
      Except.ok (NOT_RUN, Option.none) ∧
    extract_option_puts_dataset fetchNotRun scrubMark sampleWd "sort-by-date" =
      Except.ok (SUCCESS, some markDf) := by
  have hc : extract_option_calls_dataset fetchNotRun scrubMark sampleWd
      "sort-by-date" = Except.ok (SUCCESS, some markDf) := rfl
  have hp : extract_option_puts_dataset fetchNotRun scrubMark sampleWd
      "sort-by-date" = Except.ok (SUCCESS, some markDf) := rfl
  refine ⟨?_, hc, ?_, hp⟩
  · rw [hc]
    simp [SUCCESS, NOT_RUN]
  · rw [hp]
    simp [SUCCESS, NOT_RUN]

/-- C1 (amended): on a non-`SUCCESS` store status the option pipelines
skip decoding (nothing besides `status` is read from the record), but
they do not return early: the scrub routine is invoked on a `None`
table, its fault (if any) propagates, and a completed scrub yields
status `SUCCESS` paired with the scrub output. -/
theorem C1_nonsuccess_scrubs_none (fetch : Fetch) (scrub : Scrub)
    (wd : PyDict) (m : String) (cp : ConnParams) (rec s : PyVal)
    (hcp : optionConnParams wd = Except.ok cp)
    (hfc : fetch (mkCallsFetchArgs wd cp) = Except.ok rec)
    (hfp : fetch (mkPutsFetchArgs wd cp) = Except.ok rec)
    (hs : pyValSubscript rec "status" = Except.ok s)
    (hns : s ≠ SUCCESS) :
    extract_option_calls_dataset fetch scrub wd m =
      Except.map (fun out => (SUCCESS, out))
        (scrub (mkCallsScrubArgs wd m Option.none)) ∧
    extract_option_puts_dataset fetch scrub wd m =
      Except.map (fun out => (SUCCESS, out))
        (scrub (mkPutsScrubArgs wd m Option.none)) := by
  have htc := optionCallsTry_nonsuccess fetch (mkCallsFetchArgs wd cp) rec s hfc hs hns
  have htp := optionPutsTry_nonsuccess fetch (mkPutsFetchArgs wd cp) rec s hfp hs hns
  constructor
  · rw [extract_option_calls_dataset_eq fetch scrub wd m cp hcp, htc]
    cases hsc : scrub (mkCallsScrubArgs wd m Option.none) <;>
      simp [Except.map, hsc]
  · rw [extract_option_puts_dataset_eq fetch scrub wd m cp hcp, htp]
    cases hsc : scrub (mkPutsScrubArgs wd m Option.none) <;>
      simp [Except.map, hsc]

/-- Witness for `C1_nonsuccess_scrubs_none` at a concrete request and a
`NOT_RUN` store response, with an echoing scrub. -/
theorem C1_nonsuccess_scrubs_none_witness :
    extract_option_calls_dataset fetchNotRun scrubEcho sampleWd "sort-by-date" =
      Except.map (fun out => (SUCCESS, out))
        (scrubEcho (mkCallsScrubArgs sampleWd "sort-by-date" Option.none)) ∧
    extract_option_puts_dataset fetchNotRun scrubEcho sampleWd "sort-by-date" =
      Except.map (fun out => (SUCCESS, out))
        (scrubEcho (mkPutsScrubArgs sampleWd "sort-by-date" Option.none)) :=
  C1_nonsuccess_scrubs_none fetchNotRun scrubEcho sampleWd "sort-by-date"
    sampleCp (PyVal.dict [("status", NOT_RUN)]) NOT_RUN rfl rfl rfl rfl
    (by simp [NOT_RUN, SUCCESS])

/-- C3: an exception inside the `try` block — the fetch call raising,
or a `SUCCESS` response whose nested record is malformed (missing
`rec`/`data`/`exp_date`/`calls`/`puts`, or an undecodable serialized
table), all of which surface as an `Except.error` of the `try` body —
is converted to status `ERR` with a `None` table and is not re-raised
to the caller. -/
theorem C3_try_fault_gives_err (fetch : Fetch) (scrub : Scrub)
    (wd : PyDict) (m : String) (cp : ConnParams)
    (hcp : optionConnParams wd = Except.ok cp) :
    (∀ e, optionCallsTry fetch (mkCallsFetchArgs wd cp) = Except.error e →
      extract_option_calls_dataset fetch scrub wd m =
        Except.ok (ERR, Option.none)) ∧
    (∀ e, optionPutsTry fetch (mkPutsFetchArgs wd cp) = Except.error e →
      extract_option_puts_dataset fetch scrub wd m =
        Except.ok (ERR, Option.none)) ∧
    (∀ e, fetch (mkCallsFetchArgs wd cp) = Except.error e →
      extract_option_calls_dataset fetch scrub wd m =
        Except.ok (ERR, Option.none)) ∧
    (∀ e, fetch (mkPutsFetchArgs wd cp) = Except.error e →
      extract_option_puts_dataset fetch scrub wd m =
        Except.ok (ERR, Option.none)) := by
  have hcalls : ∀ e, optionCallsTry fetch (mkCallsFetchArgs wd cp) = Except.error e →
      extract_option_calls_dataset fetch scrub wd m = Except.ok (ERR, Option.none) := by
    intro e htry
    rw [extract_option_calls_dataset_eq fetch scrub wd m cp hcp, htry]
  have hputs : ∀ e, optionPutsTry fetch (mkPutsFetchArgs wd cp) = Except.error e →
      extract_option_puts_dataset fetch scrub wd m = Except.ok (ERR, Option.none) := by
    intro e htry
    rw [extract_option_puts_dataset_eq fetch scrub wd m cp hcp, htry]
  exact ⟨hcalls, hputs,
    fun e hf => hcalls e (optionCallsTry_fetch_error fetch _ e hf),
    fun e hf => hputs e (optionPutsTry_fetch_error fetch _ e hf)⟩

/-- Witness for `C3_try_fault_gives_err`: a `SUCCESS` response whose
`rec.data` lacks the `calls`/`puts` fields gives `(ERR, None)` on both
sides, and a raising fetch gives `(ERR, None)` as well. -/
theorem C3_try_fault_gives_err_witness :
    extract_option_calls_dataset fetchMissingCalls scrubEcho sampleWd
      "sort-by-date" = Except.ok (ERR, Option.none) ∧
    extract_option_puts_dataset fetchMissingCalls scrubEcho sampleWd
      "sort-by-date" = Except.ok (ERR, Option.none) ∧
    extract_option_calls_dataset fetchRaise scrubEcho sampleWd
      "sort-by-date" = Except.ok (ERR, Option.none) :=
  ⟨(C3_try_fault_gives_err fetchMissingCalls scrubEcho sampleWd
      "sort-by-date" sampleCp rfl).1 (PyErr.keyError "calls") rfl,
   (C3_try_fault_gives_err fetchMissingCalls scrubEcho sampleWd
      "sort-by-date" sampleCp rfl).2.1 (PyErr.keyError "puts") rfl,
   (C3_try_fault_gives_err fetchRaise scrubEcho sampleWd
      "sort-by-date" sampleCp rfl).2.2.1 (PyErr.exn "conn down") rfl⟩

/-- C4: the scrub call sits outside the `try` handler, so a scrub fault
escapes the pipeline unchanged — it is neither swallowed nor converted
to status `ERR`. -/
theorem C4_scrub_fault_propagates (fetch : Fetch) (scrub : Scrub)
    (wd : PyDict) (m : String) (cp : ConnParams)
    (hcp : optionConnParams wd = Except.ok cp) :
    (∀ s df e, optionCallsTry fetch (mkCallsFetchArgs wd cp) = Except.ok (s, df) →
      scrub (mkCallsScrubArgs wd m df) = Except.error e →
      extract_option_calls_dataset fetch scrub wd m = Except.error e) ∧
    (∀ s df e, optionPutsTry fetch (mkPutsFetchArgs wd cp) = Except.ok (s, df) →
      scrub (mkPutsScrubArgs wd m df) = Except.error e →
      extract_option_puts_dataset fetch scrub wd m = Except.error e) := by
  constructor
  · intro s df e htry hscrub
    rw [extract_option_calls_dataset_eq fetch scrub wd m cp hcp, htry]
    simp [hscrub]
  · intro s df e htry hscrub
    rw [extract_option_puts_dataset_eq fetch scrub wd m cp hcp, htry]
    simp [hscrub]

/-- Witness for `C4_scrub_fault_propagates`: a raising scrub makes both
pipelines raise that same fault. -/
theorem C4_scrub_fault_propagates_witness :
    extract_option_calls_dataset fetchNotRun scrubRaise sampleWd
      "sort-by-date" = Except.error (PyErr.exn "scrub boom") ∧
    extract_option_puts_dataset fetchNotRun scrubRaise sampleWd
      "sort-by-date" = Except.error (PyErr.exn "scrub boom") :=
  ⟨(C4_scrub_fault_propagates fetchNotRun scrubRaise sampleWd "sort-by-date"
      sampleCp rfl).1 NOT_RUN Option.none (PyErr.exn "scrub boom") rfl rfl,
   (C4_scrub_fault_propagates fetchNotRun scrubRaise sampleWd "sort-by-date"
      sampleCp rfl).2 NOT_RUN Option.none (PyErr.exn "scrub boom") rfl rfl⟩

/-- C5: whenever the scrub routine is reached and returns without
raising, the pipeline's status is unconditionally `SUCCESS`, whatever
table (including `None`) the scrub routine hands back. -/
theorem C5_scrub_completion_gives_success (fetch : Fetch) (scrub : Scrub)
    (wd : PyDict) (m : String) (cp : ConnParams)
    (hcp : optionConnParams wd = Except.ok cp) :
    (∀ s df out, optionCallsTry fetch (mkCallsFetchArgs wd cp) = Except.ok (s, df) →
      scrub (mkCallsScrubArgs wd m df) = Except.ok out →
      extract_option_calls_dataset fetch scrub wd m = Except.ok (SUCCESS, out)) ∧
    (∀ s df out, optionPutsTry fetch (mkPutsFetchArgs wd cp) = Except.ok (s, df) →
      scrub (mkPutsScrubArgs wd m df) = Except.ok out →
      extract_option_puts_dataset fetch scrub wd m = Except.ok (SUCCESS, out)) := by
  constructor
  · intro s df out htry hscrub
    rw [extract_option_calls_dataset_eq fetch scrub wd m cp hcp, htry]
    simp [hscrub]
  · intro s df out htry hscrub
    rw [extract_option_puts_dataset_eq fetch scrub wd m cp hcp, htry]
    simp [hscrub]

/-- Witness for `C5_scrub_completion_gives_success`: a scrub returning
a null table still yields status `SUCCESS` on both sides. -/
theorem C5_scrub_completion_gives_success_witness :
    extract_option_calls_dataset fetchNotRun scrubNone sampleWd
      "sort-by-date" = Except.ok (SUCCESS, Option.none) ∧
    extract_option_puts_dataset fetchNotRun scrubNone sampleWd
      "sort-by-date" = Except.ok (SUCCESS, Option.none) :=
  ⟨(C5_scrub_completion_gives_success fetchNotRun scrubNone sampleWd
      "sort-by-date" sampleCp rfl).1 NOT_RUN Option.none Option.none rfl rfl,
   (C5_scrub_completion_gives_success fetchNotRun scrubNone sampleWd
      "sort-by-date" sampleCp rfl).2 NOT_RUN Option.none Option.none rfl rfl⟩

/-- C9: a table encoded to the row-oriented serialized form and served
through a `SUCCESS` store response decodes back through each option
pipeline (with the spec-modelled scrub) to status `SUCCESS` and a
non-null table with the same number of rows whose rows are a
permutation of the input rows, so every scalar field value is
preserved. -/
theorem C9_roundtrip (wd : PyDict) (m : String) (cp : ConnParams)
    (rows : List Row) (ed : PyVal)
    (hcp : optionConnParams wd = Except.ok cp) :
    (∃ df, extract_option_calls_dataset
        (fun _ => Except.ok (mkOptionsSuccessRec ed rows))
        extract_scrub_dataset_model wd m = Except.ok (SUCCESS, some df) ∧
      df.rows.length = rows.length ∧ df.rows.Perm rows) ∧
    (∃ df, extract_option_puts_dataset
        (fun _ => Except.ok (mkOptionsSuccessRec ed rows))
        extract_scrub_dataset_model wd m = Except.ok (SUCCESS, some df) ∧
      df.rows.length = rows.length ∧ df.rows.Perm rows) := by
  have hperm := sortRowsByDate_perm rows
  have htc := optionCallsTry_success
    (fun _ => Except.ok (mkOptionsSuccessRec ed rows))
    (mkCallsFetchArgs wd cp) (mkOptionsSuccessRec ed rows) _ _ ed
    (encodeRecords ⟨rows⟩) ⟨rows⟩ rfl rfl rfl rfl rfl rfl
    (read_json_records_encodeRecords ⟨rows⟩)
  have htp := optionPutsTry_success
    (fun _ => Except.ok (mkOptionsSuccessRec ed rows))
    (mkPutsFetchArgs wd cp) (mkOptionsSuccessRec ed rows) _ _ ed
    (encodeRecords ⟨rows⟩) ⟨rows⟩ rfl rfl rfl rfl rfl rfl
    (read_json_records_encodeRecords ⟨rows⟩)
  constructor
  · refine ⟨⟨sortRowsByDate rows⟩, ?_, hperm.length_eq, hperm⟩
    rw [extract_option_calls_dataset_eq _ _ wd m cp hcp, htc]
    rfl
  · refine ⟨⟨sortRowsByDate rows⟩, ?_, hperm.length_eq, hperm⟩
    rw [extract_option_puts_dataset_eq _ _ wd m cp hcp, htp]
    rfl

/-- Witness for `C9_roundtrip` at a concrete request and two concrete
rows. -/
theorem C9_roundtrip_witness :
    (∃ df, extract_option_calls_dataset
        (fun _ => Except.ok (mkOptionsSuccessRec (PyVal.str "2024-01-19") sampleRows))
        extract_scrub_dataset_model sampleWd "sort-by-date" =
          Except.ok (SUCCESS, some df) ∧
      df.rows.length = sampleRows.length ∧ df.rows.Perm sampleRows) ∧
    (∃ df, extract_option_puts_dataset
        (fun _ => Except.ok (mkOptionsSuccessRec (PyVal.str "2024-01-19") sampleRows))
        extract_scrub_dataset_model sampleWd "sort-by-date" =
          Except.ok (SUCCESS, some df) ∧
      df.rows.length = sampleRows.length ∧ df.rows.Perm sampleRows) :=
  C9_roundtrip sampleWd "sort-by-date" sampleCp sampleRows
    (PyVal.str "2024-01-19") rfl

end ExtractDfFromRedis
